import Mathlib

/-
Shallow embedding of the follow/visibility core of the mapin-api backend.

The relational store (Prisma over PostgreSQL) is modelled as explicit state:
a `Store` record holding the rows of the `users`, `follows`, `follow_requests`
and `pins` tables.  Each service method of `FollowService`
(src/services/follow.service.ts) and `PinService` (src/services/pin.service.ts)
becomes a pure function from a `Store` (and arguments) to a result paired with
the successor `Store`.  A thrown service error becomes `Except.error e` with the
store returned unchanged (the source throws before any write).  The store's
uniqueness constraints on (follower_id, following_id) and
(sender_id, receiver_id) (migration SQL, `follows_follower_id_following_id_key`
and `follow_requests_sender_id_receiver_id_key`) are part of the store
collaborator's create operations: a duplicate insert is rejected with an opaque
constraint fault (Prisma error P2002), which the service code does not catch.
-/

namespace Mapin

/-- Status of a follow request row, enum `RequestStatus` of the schema. -/
inductive RequestStatus where
  | PENDING
  | ACCEPTED
  | REJECTED
deriving DecidableEq, Repr

/-- A row of the `users` table; only the fields the follow/visibility core
reads are kept (`id`, `is_private`). -/
structure User where
  id : Nat
  isPrivate : Bool
deriving DecidableEq, Repr

/-- A row of the `follows` table: a directed edge follower -> following. -/
structure Follow where
  id : Nat
  followerId : Nat
  followingId : Nat
deriving DecidableEq, Repr

/-- A row of the `follow_requests` table. -/
structure FollowRequest where
  id : Nat
  senderId : Nat
  receiverId : Nat
  status : RequestStatus
deriving DecidableEq, Repr

/-- A row of the `pins` table; fields the pin query layer reads. -/
structure Pin where
  id : Nat
  authorId : Nat
  lat : ℝ
  lng : ℝ
  isPublic : Bool
  createdAt : Nat

/-- The relational store.  `nextId` supplies fresh primary keys. -/
structure Store where
  users : List User
  follows : List Follow
  requests : List FollowRequest
  pins : List Pin
  nextId : Nat

/-- Embeds `prisma.user.findUnique({ where: { id } })`. -/
def findUser (σ : Store) (id : Nat) : Option User :=
  σ.users.find? (fun u => u.id == id)

/-- Embeds `prisma.follow.findUnique({ where: { followerId_followingId } })`. -/
def findFollow (σ : Store) (followerId followingId : Nat) : Option Follow :=
  σ.follows.find? (fun f => f.followerId == followerId && f.followingId == followingId)

/-- The pattern `requestingUserId ? await prisma.follow.findUnique(...) : null`
used when the acting user id is optional. -/
def findFollowOpt (σ : Store) (viewer : Option Nat) (followingId : Nat) : Option Follow :=
  viewer.bind (fun v => findFollow σ v followingId)

/-- Embeds `prisma.followRequest.findUnique({ where: { senderId_receiverId } })`. -/
def findRequestByPair (σ : Store) (senderId receiverId : Nat) : Option FollowRequest :=
  σ.requests.find? (fun r => r.senderId == senderId && r.receiverId == receiverId)

/-- Embeds `prisma.followRequest.findUnique({ where: { id } })`. -/
def findRequestById (σ : Store) (id : Nat) : Option FollowRequest :=
  σ.requests.find? (fun r => r.id == id)

/-- Embeds `prisma.pin.findUnique({ where: { id } })`. -/
def findPin (σ : Store) (id : Nat) : Option Pin :=
  σ.pins.find? (fun p => p.id == id)

/-- Errors of the follow subsystem.  The first eight are the named taxonomy
(thrown by the service with the corresponding messages); `storeConstraintFault`
is an uncaught store error: the unique-constraint violation P2002 that the
follow service never anticipates, surfacing as an opaque internal fault. -/
inductive FollowError where
  | selfFollow            -- "You cannot follow yourself"
  | alreadyFollowing      -- "Already following this user"
  | targetNotFound        -- "User not found"
  | requestAlreadyPending -- "Follow request already pending"
  | requestNotFound       -- "Follow request not found"
  | unauthorized          -- "Unauthorized"
  | notPending            -- "Request is not pending" / "Can only cancel pending requests"
  | notFollowing          -- "Not following this user" / "User is not following you"
  | storeConstraintFault  -- uncaught Prisma P2002 unique-constraint violation
deriving DecidableEq, Repr

/-- Embeds `prisma.follow.create`: the store enforces the unique index on
(follower_id, following_id); a duplicate insert raises the opaque
constraint fault and writes nothing. -/
def createFollow (σ : Store) (followerId followingId : Nat) :
    Except FollowError Follow × Store :=
  if (findFollow σ followerId followingId).isSome then
    (.error .storeConstraintFault, σ)
  else
    let f : Follow := ⟨σ.nextId, followerId, followingId⟩
    (.ok f, { σ with follows := σ.follows ++ [f], nextId := σ.nextId + 1 })

/-- Embeds `prisma.followRequest.create` (status defaults to PENDING): the store
enforces the unique index on (sender_id, receiver_id); a duplicate insert
raises the opaque constraint fault and writes nothing. -/
def createRequest (σ : Store) (senderId receiverId : Nat) :
    Except FollowError FollowRequest × Store :=
  if (findRequestByPair σ senderId receiverId).isSome then
    (.error .storeConstraintFault, σ)
  else
    let r : FollowRequest := ⟨σ.nextId, senderId, receiverId, .PENDING⟩
    (.ok r, { σ with requests := σ.requests ++ [r], nextId := σ.nextId + 1 })

/-- Embeds `prisma.followRequest.update({ where: { id }, data: { status } })`. -/
def updateRequestStatus (σ : Store) (id : Nat) (st : RequestStatus) : Store :=
  { σ with requests :=
      σ.requests.map (fun r => if r.id == id then { r with status := st } else r) }

/-- Embeds `prisma.follow.delete({ where: { id } })`. -/
def deleteFollowRow (σ : Store) (id : Nat) : Store :=
  { σ with follows := σ.follows.filter (fun f => !(f.id == id)) }

/-- Embeds `prisma.followRequest.delete({ where: { id } })`. -/
def deleteRequestRow (σ : Store) (id : Nat) : Store :=
  { σ with requests := σ.requests.filter (fun r => !(r.id == id)) }

/-- Result of `FollowService.followUser`: `{ type: "follow", follow }` or
`{ type: "request", request }`. -/
inductive FollowResult where
  | follow (f : Follow)
  | request (r : FollowRequest)
deriving DecidableEq, Repr

/-- Lines 74-92 of follow.service.ts: the `prisma.followRequest.create` call
reached for a private target when no PENDING or REJECTED row short-circuited
(no row at all, or an ACCEPTED row which the if/else-if chain falls through). -/
def followUserPrivateCreate (σ : Store) (followerId followingId : Nat) :
    Except FollowError FollowResult × Store :=
  match createRequest σ followerId followingId with
  | (.ok r, σ') => (.ok (.request r), σ')
  | (.error e, σ') => (.error e, σ')

/-- Lines 95-114 of follow.service.ts: the public-target branch, a bare
`prisma.follow.create` with no catch around it.  It is split out because it
runs as its own store round-trip: the store it sees may already contain the
edge if a concurrent call inserted it after this call's guard check. -/
def followUserPublicInsert (σ : Store) (followerId followingId : Nat) :
    Except FollowError FollowResult × Store :=
  match createFollow σ followerId followingId with
  | (.ok f, σ') => (.ok (.follow f), σ')
  | (.error e, σ') => (.error e, σ')

/-- Embeds `FollowService.followUser` (lines 8-115), sequential (no interleaving
between its store round-trips). -/
def followUser (σ : Store) (followerId followingId : Nat) :
    Except FollowError FollowResult × Store :=
  if followerId = followingId then
    (.error .selfFollow, σ)
  else if (findFollow σ followerId followingId).isSome then
    (.error .alreadyFollowing, σ)
  else
    match findUser σ followingId with
    | none => (.error .targetNotFound, σ)
    | some targetUser =>
      if targetUser.isPrivate then
        match findRequestByPair σ followerId followingId with
        | some existingRequest =>
          match existingRequest.status with
          | .PENDING => (.error .requestAlreadyPending, σ)
          | .REJECTED =>
            (.ok (.request { existingRequest with status := .PENDING }),
             updateRequestStatus σ existingRequest.id .PENDING)
          | .ACCEPTED => followUserPrivateCreate σ followerId followingId
        | none => followUserPrivateCreate σ followerId followingId
      else
        followUserPublicInsert σ followerId followingId

/-- Embeds `FollowService.unfollowUser` (lines 120-139). -/
def unfollowUser (σ : Store) (followerId followingId : Nat) :
    Except FollowError Bool × Store :=
  match findFollow σ followerId followingId with
  | none => (.error .notFollowing, σ)
  | some follow => (.ok true, deleteFollowRow σ follow.id)

/-- Embeds `FollowService.removeFollower` (lines 144-163). -/
def removeFollower (σ : Store) (userId followerId : Nat) :
    Except FollowError Bool × Store :=
  match findFollow σ followerId userId with
  | none => (.error .notFollowing, σ)
  | some follow => (.ok true, deleteFollowRow σ follow.id)

/-- Embeds `FollowService.cancelFollowRequest` (lines 168-191). -/
def cancelFollowRequest (σ : Store) (senderId receiverId : Nat) :
    Except FollowError Bool × Store :=
  match findRequestByPair σ senderId receiverId with
  | none => (.error .requestNotFound, σ)
  | some request =>
    if request.status ≠ .PENDING then
      (.error .notPending, σ)
    else
      (.ok true, deleteRequestRow σ request.id)

/-- Embeds `FollowService.acceptFollowRequest` (lines 196-239).  The
`prisma.$transaction([follow.create, followRequest.update])` is one atomic
step: if the edge insert violates the unique constraint the whole transaction
aborts and the store is unchanged; otherwise both writes commit together. -/
def acceptFollowRequest (σ : Store) (receiverId requestId : Nat) :
    Except FollowError Follow × Store :=
  match findRequestById σ requestId with
  | none => (.error .requestNotFound, σ)
  | some request =>
    if request.receiverId ≠ receiverId then
      (.error .unauthorized, σ)
    else if request.status ≠ .PENDING then
      (.error .notPending, σ)
    else
      match createFollow σ request.senderId request.receiverId with
      | (.error e, _) => (.error e, σ)
      | (.ok f, σ₁) => (.ok f, updateRequestStatus σ₁ requestId .ACCEPTED)

/-- Embeds `FollowService.rejectFollowRequest` (lines 244-267). -/
def rejectFollowRequest (σ : Store) (receiverId requestId : Nat) :
    Except FollowError Bool × Store :=
  match findRequestById σ requestId with
  | none => (.error .requestNotFound, σ)
  | some request =>
    if request.receiverId ≠ receiverId then
      (.error .unauthorized, σ)
    else if request.status ≠ .PENDING then
      (.error .notPending, σ)
    else
      (.ok true, updateRequestStatus σ requestId .REJECTED)

/-- Embeds `FollowService.isFollowing` (lines 434-445). -/
def isFollowing (σ : Store) (followerId followingId : Nat) : Bool :=
  (findFollow σ followerId followingId).isSome

/-- Embeds `FollowService.getFollowRequestStatus` (lines 450-461). -/
def getFollowRequestStatus (σ : Store) (senderId receiverId : Nat) :
    Option RequestStatus :=
  (findRequestByPair σ senderId receiverId).map (fun r => r.status)

/-- Embeds `PinService.deg2rad` (pin.service.ts lines 478-480). -/
noncomputable def deg2rad (deg : ℝ) : ℝ :=
  deg * (Real.pi / 180)

/-- JavaScript `Math.atan2(y, x)`: the argument of the complex number
`x + y*i`, valued in (-pi, pi]. -/
noncomputable def atan2 (y x : ℝ) : ℝ :=
  Complex.arg ⟨x, y⟩

/-- Embeds `PinService.calculateDistance` (lines 458-476): haversine distance with
Earth radius `R = 6371` kilometers. -/
noncomputable def calculateDistance (lat1 lon1 lat2 lon2 : ℝ) : ℝ :=
  let R : ℝ := 6371
  let dLat := deg2rad (lat2 - lat1)
  let dLon := deg2rad (lon2 - lon1)
  let a :=
    Real.sin (dLat / 2) * Real.sin (dLat / 2) +
      Real.cos (deg2rad lat1) * Real.cos (deg2rad lat2) *
        Real.sin (dLon / 2) * Real.sin (dLon / 2)
  let c := 2 * atan2 (Real.sqrt a) (Real.sqrt (1 - a))
  R * c

/-- Embeds `PinService.getPinById` (lines 57-124), projected to the access decision:
which pin row, if any, the caller gets back.  `userId` is the optional
authenticated viewer.  Line 99: `if (!pin.isPublic && userId !== pin.authorId)`,
then for an authenticated viewer a follow-edge lookup decides, and an
anonymous viewer is refused. -/
def getPinById (σ : Store) (pinId : Nat) (userId : Option Nat) : Option Pin :=
  match findPin σ pinId with
  | none => none
  | some pin =>
    if pin.isPublic = false ∧ userId ≠ some pin.authorId then
      match userId with
      | some uid =>
        if (findFollow σ uid pin.authorId).isSome then some pin else none
      | none => none
    else
      some pin

/-- The `where` clause built by `PinService.getPins` (lines 149-186): an
`authorId` equality filter when supplied, and an `isPublic` equality filter
when supplied.  Nothing else is filtered per pin. -/
def pinMatchesWhere (authorId : Option Nat) (isPublic : Option Bool) (pin : Pin) : Bool :=
  (match authorId with
   | some a => pin.authorId == a
   | none => true) &&
  (match isPublic with
   | some b => pin.isPublic == b
   | none => true)

/-- The page retrieval `prisma.pin.findMany({ where, orderBy: createdAt desc,
take: limit, skip: offset })` (lines 190-229). -/
def queryPins (σ : Store) (authorId : Option Nat) (isPublic : Option Bool)
    (limit offset : Nat) : List Pin :=
  ((((σ.pins.filter (pinMatchesWhere authorId isPublic)).insertionSort
      (fun p q => q.createdAt ≤ p.createdAt)).drop offset).take limit)

/-- The author-privacy gate of `PinService.getPins` (lines 151-182): when an
`authorId` filter is supplied and the requester is not that author, a private
author's listing is returned only to a follower; a missing author
(`author?.isPrivate` undefined) does not block. -/
def authorGateBlocked (σ : Store) (authorId : Option Nat)
    (requestingUserId : Option Nat) : Bool :=
  match authorId with
  | none => false
  | some a =>
    if requestingUserId == some a then false
    else
      match findUser σ a with
      | some author =>
        if author.isPrivate then (findFollowOpt σ requestingUserId a).isNone
        else false
      | none => false

/-- Parameters of `PinService.getPins` (lines 126-147), with the source's
defaults `limit = 50`, `offset = 0`.  The `userId` parameter is destructured by
the source but never used in the query. -/
structure GetPinsParams where
  userId : Option Nat := none
  authorId : Option Nat := none
  lat : Option ℝ := none
  lng : Option ℝ := none
  radius : Option ℝ := none
  isPublic : Option Bool := none
  limit : Nat := 50
  offset : Nat := 0
  requestingUserId : Option Nat := none

/-- Embeds `PinService.getPins` (lines 126-256), projected to (returned pin rows,
returned total).  The location filter (lines 231-238) runs in memory over the
already-retrieved page exactly when `lat`, `lng` and `radius` are all
supplied; `total` is `prisma.pin.count({ where })` (line 248), which never
includes the distance condition. -/
noncomputable def getPins (σ : Store) (p : GetPinsParams) : List Pin × Nat :=
  if authorGateBlocked σ p.authorId p.requestingUserId then
    ([], 0)
  else
    let pins := queryPins σ p.authorId p.isPublic p.limit p.offset
    let filteredPins :=
      match p.lat, p.lng, p.radius with
      | some lat, some lng, some radius =>
        pins.filter (fun pin =>
          decide (calculateDistance lat lng pin.lat pin.lng ≤ radius))
      | _, _, _ => pins
    (filteredPins, (σ.pins.filter (pinMatchesWhere p.authorId p.isPublic)).length)

/-- Modelled from the spec (section 4.2): the pin-visibility predicate in the
spec's words, "pin visible iff `pin.isPublic == true` OR `viewer == author` OR
(`viewer` follows `author`)" — to be compared with `getPinById`. -/
def specPinVisible (σ : Store) (viewer : Option Nat) (pin : Pin) : Prop :=
  pin.isPublic = true ∨ viewer = some pin.authorId ∨
    ∃ u, viewer = some u ∧ (findFollow σ u pin.authorId).isSome = true

/-- Claimed invariant of the `follow_requests` table: at most one row per
ordered (sender, receiver) pair — no two distinct rows share a pair. -/
def RequestPairUnique (σ : Store) : Prop :=
  σ.requests.Pairwise
    (fun r₁ r₂ => ¬(r₁.senderId = r₂.senderId ∧ r₁.receiverId = r₂.receiverId))

/-- Two public users, no rows: the base store for concrete runs. -/
def store0 : Store :=
  { users := [⟨1, false⟩, ⟨2, false⟩], follows := [], requests := [], pins := [],
    nextId := 100 }

/-- A follow edge 1 -> 2 whose target user no longer exists. -/
def storeEdgeNoUser : Store :=
  { users := [⟨1, false⟩], follows := [⟨10, 1, 2⟩], requests := [], pins := [],
    nextId := 100 }

/-- Public target 2 with a leftover PENDING request row 1 -> 2 and no edge. -/
def storePendingLeftover : Store :=
  { users := [⟨1, false⟩, ⟨2, false⟩], follows := [],
    requests := [⟨20, 1, 2, .PENDING⟩], pins := [], nextId := 100 }

/-- The store as the public-insert round-trip sees it after a concurrent call
already inserted the edge 1 -> 2 (the guard check of the loser ran earlier,
on a snapshot without the edge). -/
def storeRaceEdge : Store :=
  { users := [⟨1, false⟩, ⟨2, false⟩], follows := [⟨10, 1, 2⟩], requests := [],
    pins := [], nextId := 100 }

/-- A PENDING request 1 -> 2 coexisting with an already-present edge 1 -> 2
(reachable once the target's `isPrivate` flag is flipped between the request
and a direct follow). -/
def storePendingEdge : Store :=
  { users := [⟨1, true⟩, ⟨2, true⟩], follows := [⟨10, 1, 2⟩],
    requests := [⟨20, 1, 2, .PENDING⟩], pins := [], nextId := 100 }

/-- A PENDING request 1 -> 2, no edge: the normal accept scenario. -/
def storeAcceptOk : Store :=
  { users := [⟨1, true⟩, ⟨2, true⟩], follows := [],
    requests := [⟨20, 1, 2, .PENDING⟩], pins := [], nextId := 100 }

/-- Private target 2, no request row. -/
def storePrivNone : Store :=
  { users := [⟨1, false⟩, ⟨2, true⟩], follows := [], requests := [], pins := [],
    nextId := 100 }

/-- Private target 2, PENDING request 1 -> 2. -/
def storePrivPending : Store :=
  { users := [⟨1, false⟩, ⟨2, true⟩], follows := [],
    requests := [⟨20, 1, 2, .PENDING⟩], pins := [], nextId := 100 }

/-- Private target 2, REJECTED request 1 -> 2. -/
def storePrivRejected : Store :=
  { users := [⟨1, false⟩, ⟨2, true⟩], follows := [],
    requests := [⟨20, 1, 2, .REJECTED⟩], pins := [], nextId := 100 }

/-- Private target 2, ACCEPTED request 1 -> 2 and no edge (the state after
accept followed by unfollow or follower removal). -/
def storeAcceptedRow : Store :=
  { users := [⟨1, false⟩, ⟨2, true⟩], follows := [],
    requests := [⟨20, 1, 2, .ACCEPTED⟩], pins := [], nextId := 100 }

/-- A non-public pin authored by user 2. -/
def pinPriv : Pin :=
  { id := 1, authorId := 2, lat := 0, lng := 0, isPublic := false, createdAt := 5 }

/-- A public pin authored by public user 1. -/
def pinPub : Pin :=
  { id := 2, authorId := 1, lat := 0, lng := 0, isPublic := true, createdAt := 6 }

/-- Private author 2 with one non-public pin, public author 1 with one public
pin; viewer 3 follows nobody. -/
def storePins : Store :=
  { users := [⟨1, false⟩, ⟨2, true⟩, ⟨3, false⟩], follows := [],
    requests := [], pins := [pinPriv, pinPub], nextId := 100 }

/-- Same as `storePins` but viewer 3 follows author 2. -/
def storePinsFollow : Store :=
  { users := [⟨1, false⟩, ⟨2, true⟩, ⟨3, false⟩], follows := [⟨10, 3, 2⟩],
    requests := [], pins := [pinPriv, pinPub], nextId := 100 }

lemma find?_status_invariant_map (pr : FollowRequest → Bool)
    (hpr : ∀ x st', pr { x with status := st' } = pr x)
    (rid : Nat) (st : RequestStatus) :
    ∀ (l : List FollowRequest) (r : FollowRequest),
      l.find? pr = some r → r.id = rid →
      (l.map (fun q => if q.id == rid then { q with status := st } else q)).find? pr
        = some { r with status := st }
  | [], r => by intro h _; simp at h
  | q :: l, r => by
    intro h hrid
    rw [List.map_cons]
    by_cases hq : pr q = true
    · rw [List.find?_cons_of_pos _ hq] at h
      injection h with h
      subst h
      subst hrid
      have h1 : (if (q.id == q.id) = true then ({ q with status := st } : FollowRequest)
          else q) = { q with status := st } := by simp
      rw [h1]
      exact List.find?_cons_of_pos _ (by rw [hpr]; exact hq)
    · rw [List.find?_cons_of_neg _ hq] at h
      have ih := find?_status_invariant_map pr hpr rid st l r h hrid
      refine Eq.trans (List.find?_cons_of_neg _ ?_) ih
      by_cases hid : (q.id == rid) = true
      · rw [if_pos hid, hpr]
        exact hq
      · rw [if_neg hid]
        exact hq

lemma find?_map_update_id (rid : Nat) (st : RequestStatus)
    (l : List FollowRequest) (r : FollowRequest)
    (h : l.find? (fun q => q.id == rid) = some r) :
    (l.map (fun q => if q.id == rid then { q with status := st } else q)).find?
        (fun q => q.id == rid) = some { r with status := st } := by
  have hrid : r.id = rid := by
    have := List.find?_some h
    simpa using this
  exact find?_status_invariant_map (fun q => q.id == rid) (fun _ _ => rfl)
    rid st l r h hrid

lemma find?_map_update_pair (a b : Nat) (st : RequestStatus)
    (l : List FollowRequest) (r : FollowRequest)
    (h : l.find? (fun q => q.senderId == a && q.receiverId == b) = some r) :
    (l.map (fun q => if q.id == r.id then { q with status := st } else q)).find?
        (fun q => q.senderId == a && q.receiverId == b)
      = some { r with status := st } :=
  find?_status_invariant_map (fun q => q.senderId == a && q.receiverId == b)
    (fun _ _ => rfl) r.id st l r h rfl

lemma find?_append_new_follow (s r n : Nat) (l : List Follow)
    (h : l.find? (fun f => f.followerId == s && f.followingId == r) = none) :
    (l ++ [(⟨n, s, r⟩ : Follow)]).find?
        (fun f => f.followerId == s && f.followingId == r) = some ⟨n, s, r⟩ := by
  rw [List.find?_append, h]
  simp [List.find?]

lemma pairwise_update_status (l : List FollowRequest) (rid : Nat) (st : RequestStatus)
    (h : l.Pairwise
      (fun r₁ r₂ => ¬(r₁.senderId = r₂.senderId ∧ r₁.receiverId = r₂.receiverId))) :
    (l.map (fun q => if q.id == rid then { q with status := st } else q)).Pairwise
      (fun r₁ r₂ => ¬(r₁.senderId = r₂.senderId ∧ r₁.receiverId = r₂.receiverId)) := by
  rw [List.pairwise_map]
  refine h.imp ?_
  intro x y hxy
  by_cases hx : x.id = rid <;> by_cases hy : y.id = rid <;>
    simpa [hx, hy] using hxy

lemma pairwise_append_new_request (l : List FollowRequest) (a b n : Nat)
    (hnone : l.find? (fun q => q.senderId == a && q.receiverId == b) = none)
    (h : l.Pairwise
      (fun r₁ r₂ => ¬(r₁.senderId = r₂.senderId ∧ r₁.receiverId = r₂.receiverId))) :
    (l ++ [(⟨n, a, b, .PENDING⟩ : FollowRequest)]).Pairwise
      (fun r₁ r₂ => ¬(r₁.senderId = r₂.senderId ∧ r₁.receiverId = r₂.receiverId)) := by
  rw [List.pairwise_append]
  refine ⟨h, by simp, ?_⟩
  intro x hx y hy
  rw [List.mem_singleton] at hy
  subst hy
  rw [List.find?_eq_none] at hnone
  have := hnone x hx
  simpa using this

lemma rpu_of_requests_eq {σ σ' : Store} (h : σ'.requests = σ.requests)
    (hu : RequestPairUnique σ) : RequestPairUnique σ' := by
  unfold RequestPairUnique at *
  rw [h]
  exact hu

lemma rpu_updateRequestStatus (σ : Store) (id : Nat) (st : RequestStatus)
    (h : RequestPairUnique σ) : RequestPairUnique (updateRequestStatus σ id st) :=
  pairwise_update_status σ.requests id st h

lemma rpu_deleteRequestRow (σ : Store) (id : Nat)
    (h : RequestPairUnique σ) : RequestPairUnique (deleteRequestRow σ id) :=
  h.sublist (List.filter_sublist σ.requests)

lemma createFollow_requests (σ : Store) (a b : Nat) :
    ((createFollow σ a b).2).requests = σ.requests := by
  unfold createFollow
  split <;> rfl

lemma rpu_createRequest (σ : Store) (a b : Nat)
    (h : RequestPairUnique σ) : RequestPairUnique ((createRequest σ a b).2) := by
  unfold createRequest
  split
  · exact h
  · rename_i hns
    have hnone : findRequestByPair σ a b = none :=
      Option.not_isSome_iff_eq_none.mp hns
    exact pairwise_append_new_request σ.requests a b σ.nextId hnone h

lemma followUserPrivateCreate_snd (σ : Store) (a b : Nat) :
    (followUserPrivateCreate σ a b).2 = (createRequest σ a b).2 := by
  unfold followUserPrivateCreate
  split <;> rename_i heq <;> rw [heq]

lemma followUserPublicInsert_snd (σ : Store) (a b : Nat) :
    (followUserPublicInsert σ a b).2 = (createFollow σ a b).2 := by
  unfold followUserPublicInsert
  split <;> rename_i heq <;> rw [heq]

/-- C6: `followUser` checks its guards in the fixed order self-follow, then
already-following, then target existence.  Self-follow fails even when the
target does not exist; an existing edge fails with `alreadyFollowing` even
when the target user row is gone; only past both guards does a missing target
give `targetNotFound`.  Each failure returns the store unchanged. -/
theorem followUser_guard_order (σ : Store) (a b : Nat) :
    (a = b → followUser σ a b = (.error .selfFollow, σ)) ∧
    (a ≠ b → ∀ f, findFollow σ a b = some f →
      followUser σ a b = (.error .alreadyFollowing, σ)) ∧
    (a ≠ b → findFollow σ a b = none → findUser σ b = none →
      followUser σ a b = (.error .targetNotFound, σ)) := by
  refine ⟨?_, ?_, ?_⟩
  · intro h
    simp [followUser, h]
  · intro hab f hf
    simp [followUser, hab, hf]
  · intro hab hf hu
    simp [followUser, hab, hf, hu]

/-- C6 witness: the three guard failures at concrete stores; the second fires
even though user 2 does not exist in `storeEdgeNoUser`. -/
theorem followUser_guard_order_witness :
    followUser store0 1 1 = (.error .selfFollow, store0) ∧
    followUser storeEdgeNoUser 1 2 = (.error .alreadyFollowing, storeEdgeNoUser) ∧
    followUser store0 1 3 = (.error .targetNotFound, store0) :=
  ⟨(followUser_guard_order store0 1 1).1 rfl,
   (followUser_guard_order storeEdgeNoUser 1 2).2.1 (by decide) ⟨10, 1, 2⟩ rfl,
   (followUser_guard_order store0 1 3).2.2 (by decide) rfl rfl⟩

/-- C10: with a private existing target, no edge, and an ACCEPTED request row
for the pair, `followUser` falls through both the pending-error and the
rejected-resurrect branches and attempts a fresh `followRequest.create`; the
(sender, receiver) unique constraint rejects it and the uncaught violation
surfaces as the opaque store fault — none of the named taxonomy errors, no
success, and no store change, so the sender can never re-follow this way. -/
theorem followUser_accepted_row_opaque_fault (σ : Store) (a b : Nat)
    (u : User) (r : FollowRequest)
    (hab : a ≠ b) (hf : findFollow σ a b = none)
    (hu : findUser σ b = some u) (hp : u.isPrivate = true)
    (hr : findRequestByPair σ a b = some r) (hst : r.status = .ACCEPTED) :
    followUser σ a b = (.error .storeConstraintFault, σ) := by
  simp [followUser, hab, hf, hu, hp, hr, hst, followUserPrivateCreate,
    createRequest]

/-- C10 witness: user 1 holds an ACCEPTED request row toward private user 2
(the state after accept then unfollow) and cannot re-follow. -/
theorem followUser_accepted_row_opaque_fault_witness :
    followUser storeAcceptedRow 1 2 = (.error .storeConstraintFault, storeAcceptedRow) :=
  followUser_accepted_row_opaque_fault storeAcceptedRow 1 2 ⟨2, true⟩
    ⟨20, 1, 2, .ACCEPTED⟩ (by decide) rfl rfl rfl rfl rfl

/-- C4: when the public-target insert round-trip of `followUser` finds the
unique (follower, following) constraint violated — a concurrent creator
already inserted the edge after this call's guard check — the uncaught
violation propagates as the opaque store fault, NOT as `alreadyFollowing`:
the service wraps no catch around `prisma.follow.create`, contradicting the
spec's requirement to surface the race as `AlreadyFollowingError`. -/
theorem followUserPublicInsert_race_not_translated :
    followUserPublicInsert storeRaceEdge 1 2
        = (.error .storeConstraintFault, storeRaceEdge) ∧
    (Except.error FollowError.storeConstraintFault :
        Except FollowError FollowResult) ≠ .error .alreadyFollowing := by
  exact ⟨rfl, by simp⟩

/-- C3 counterexample: in `storePendingLeftover` user 2 is public, 1 -> 2 has
no edge but a leftover PENDING request row; `followUser` succeeds with type
"follow" yet the request row is still there afterwards, refuting the claim
that no `FollowRequest(a -> b)` row exists in the resulting state for every
prior state satisfying the precondition. -/
theorem followUser_public_leftover_request_counterexample :
    (followUser storePendingLeftover 1 2).1 = .ok (.follow ⟨100, 1, 2⟩) ∧
    findRequestByPair (followUser storePendingLeftover 1 2).2 1 2
      = some ⟨20, 1, 2, .PENDING⟩ :=
  ⟨rfl, rfl⟩

/-- C3 amended: for a public existing target with no prior edge, `followUser`
succeeds with a result of type "follow" and exactly one Follow(a -> b) edge
exists afterwards; the operation leaves the `follow_requests` table untouched,
so no request row for the pair exists afterwards exactly when none existed
before. -/
theorem followUser_public_follow_amended (σ : Store) (a b : Nat) (u : User)
    (hab : a ≠ b) (hf : findFollow σ a b = none)
    (hu : findUser σ b = some u) (hp : u.isPrivate = false) :
    followUser σ a b =
      (.ok (.follow ⟨σ.nextId, a, b⟩),
       { σ with follows := σ.follows ++ [⟨σ.nextId, a, b⟩],
                nextId := σ.nextId + 1 }) ∧
    ((followUser σ a b).2.follows.countP
        (fun f => f.followerId == a && f.followingId == b) = 1) ∧
    (followUser σ a b).2.requests = σ.requests := by
  have hmain : followUser σ a b =
      (.ok (.follow ⟨σ.nextId, a, b⟩),
       { σ with follows := σ.follows ++ [⟨σ.nextId, a, b⟩],
                nextId := σ.nextId + 1 }) := by
    simp [followUser, hab, hf, hu, hp, followUserPublicInsert, createFollow]
  refine ⟨hmain, ?_, ?_⟩
  · rw [hmain]
    have hzero : σ.follows.countP
        (fun f => f.followerId == a && f.followingId == b) = 0 := by
      rw [List.countP_eq_zero]
      rw [findFollow, List.find?_eq_none] at hf
      exact hf
    simp [List.countP_append, hzero]
  · rw [hmain]

/-- C3 witness for the amended theorem: from the clean store the public follow
creates the single edge and the (empty) request table is untouched. -/
theorem followUser_public_follow_amended_witness :
    followUser store0 1 2 =
      (.ok (.follow ⟨100, 1, 2⟩),
       { store0 with follows := [⟨100, 1, 2⟩], nextId := 101 }) ∧
    ((followUser store0 1 2).2.follows.countP
        (fun f => f.followerId == 1 && f.followingId == 2) = 1) ∧
    (followUser store0 1 2).2.requests = store0.requests :=
  followUser_public_follow_amended store0 1 2 ⟨2, false⟩ (by decide) rfl rfl rfl

/-- C5: `followUser` toward a private existing target with no edge:
with no request row it creates a fresh PENDING row and returns type "request";
with a PENDING row it fails with `requestAlreadyPending` and changes nothing;
with a REJECTED row it updates that same row (same id) back to PENDING in
place — the request table keeps its length and the pair maps to the
resurrected row, so reject-then-reattempt cycles one row
PENDING -> REJECTED -> PENDING. -/
theorem followUser_private_request_lifecycle (σ : Store) (a b : Nat) (u : User)
    (hab : a ≠ b) (hf : findFollow σ a b = none)
    (hu : findUser σ b = some u) (hp : u.isPrivate = true) :
    (findRequestByPair σ a b = none →
      followUser σ a b =
        (.ok (.request ⟨σ.nextId, a, b, .PENDING⟩),
         { σ with requests := σ.requests ++ [⟨σ.nextId, a, b, .PENDING⟩],
                  nextId := σ.nextId + 1 }) ∧
      (followUser σ a b).2.requests.countP
          (fun q => q.senderId == a && q.receiverId == b) = 1) ∧
    (∀ r, findRequestByPair σ a b = some r → r.status = .PENDING →
      followUser σ a b = (.error .requestAlreadyPending, σ)) ∧
    (∀ r, findRequestByPair σ a b = some r → r.status = .REJECTED →
      followUser σ a b =
        (.ok (.request { r with status := .PENDING }),
         updateRequestStatus σ r.id .PENDING) ∧
      (followUser σ a b).2.requests.length = σ.requests.length ∧
      findRequestByPair (followUser σ a b).2 a b
        = some { r with status := .PENDING }) := by
  refine ⟨?_, ?_, ?_⟩
  · intro hr
    have hmain : followUser σ a b =
        (.ok (.request ⟨σ.nextId, a, b, .PENDING⟩),
         { σ with requests := σ.requests ++ [⟨σ.nextId, a, b, .PENDING⟩],
                  nextId := σ.nextId + 1 }) := by
      simp [followUser, hab, hf, hu, hp, hr, followUserPrivateCreate,
        createRequest]
    refine ⟨hmain, ?_⟩
    rw [hmain]
    have hzero : σ.requests.countP
        (fun q => q.senderId == a && q.receiverId == b) = 0 := by
      rw [List.countP_eq_zero]
      rw [findRequestByPair, List.find?_eq_none] at hr
      exact hr
    simp [List.countP_append, hzero]
  · intro r hr hst
    simp [followUser, hab, hf, hu, hp, hr, hst]
  · intro r hr hst
    have hmain : followUser σ a b =
        (.ok (.request { r with status := .PENDING }),
         updateRequestStatus σ r.id .PENDING) := by
      simp [followUser, hab, hf, hu, hp, hr, hst]
    refine ⟨hmain, ?_, ?_⟩
    · rw [hmain]
      simp [updateRequestStatus]
    · rw [hmain]
      exact find?_map_update_pair a b .PENDING σ.requests r hr

/-- C5 witness: the three lifecycle cases run concretely against private
user 2: fresh creation, pending rejection, and in-place resurrection of the
REJECTED row 20. -/
theorem followUser_private_request_lifecycle_witness :
    (followUser storePrivNone 1 2 =
      (.ok (.request ⟨100, 1, 2, .PENDING⟩),
       { storePrivNone with requests := [⟨100, 1, 2, .PENDING⟩],
                            nextId := 101 })) ∧
    followUser storePrivPending 1 2 = (.error .requestAlreadyPending, storePrivPending) ∧
    (followUser storePrivRejected 1 2 =
      (.ok (.request ⟨20, 1, 2, .PENDING⟩),
       updateRequestStatus storePrivRejected 20 .PENDING) ∧
     findRequestByPair (followUser storePrivRejected 1 2).2 1 2
       = some ⟨20, 1, 2, .PENDING⟩) :=
  ⟨((followUser_private_request_lifecycle storePrivNone 1 2 ⟨2, true⟩
      (by decide) rfl rfl rfl).1 rfl).1,
   (followUser_private_request_lifecycle storePrivPending 1 2 ⟨2, true⟩
      (by decide) rfl rfl rfl).2.1 ⟨20, 1, 2, .PENDING⟩ rfl rfl,
   ⟨((followUser_private_request_lifecycle storePrivRejected 1 2 ⟨2, true⟩
      (by decide) rfl rfl rfl).2.2 ⟨20, 1, 2, .REJECTED⟩ rfl rfl).1,
    ((followUser_private_request_lifecycle storePrivRejected 1 2 ⟨2, true⟩
      (by decide) rfl rfl rfl).2.2 ⟨20, 1, 2, .REJECTED⟩ rfl rfl).2.2⟩⟩

/-- C1 counterexample: in `storePendingEdge` request 20 (1 -> 2) is PENDING
and addressed to receiver 2, so the claim promises both effects and an
ACCEPTED status afterwards; but the edge 1 -> 2 already exists, the
transaction's `follow.create` hits the unique constraint, the whole
transaction aborts with the opaque fault (none of the three named errors),
and the stored status remains PENDING. -/
theorem acceptFollowRequest_pending_counterexample :
    (acceptFollowRequest storePendingEdge 2 20).1 = .error .storeConstraintFault ∧
    findRequestById (acceptFollowRequest storePendingEdge 2 20).2 20
      = some ⟨20, 1, 2, .PENDING⟩ :=
  ⟨rfl, rfl⟩

/-- C1 amended: for every PENDING request addressed to the caller whose
Follow edge does not already exist, `acceptFollowRequest` atomically (one
transaction step) creates the Follow(sender -> receiver) edge AND sets the
row's status to ACCEPTED — afterwards `isFollowing` holds and the stored
status is ACCEPTED, and no intermediate state with only one effect exists.
It fails with `requestNotFound` if the id is unknown, `unauthorized` if the
request's receiver is not the caller (checked before the status), and
`notPending` if the status is not PENDING, in that order, each failure
leaving the store unchanged. -/
theorem acceptFollowRequest_amended (σ : Store) (receiverId requestId : Nat) :
    (findRequestById σ requestId = none →
      acceptFollowRequest σ receiverId requestId = (.error .requestNotFound, σ)) ∧
    (∀ req, findRequestById σ requestId = some req →
      (req.receiverId ≠ receiverId →
        acceptFollowRequest σ receiverId requestId = (.error .unauthorized, σ)) ∧
      (req.receiverId = receiverId → req.status ≠ .PENDING →
        acceptFollowRequest σ receiverId requestId = (.error .notPending, σ)) ∧
      (req.receiverId = receiverId → req.status = .PENDING →
        findFollow σ req.senderId req.receiverId = none →
        acceptFollowRequest σ receiverId requestId =
          (.ok ⟨σ.nextId, req.senderId, req.receiverId⟩,
           updateRequestStatus
             { σ with follows := σ.follows ++ [⟨σ.nextId, req.senderId, req.receiverId⟩],
                      nextId := σ.nextId + 1 }
             requestId .ACCEPTED) ∧
        isFollowing (acceptFollowRequest σ receiverId requestId).2
          req.senderId req.receiverId = true ∧
        findRequestById (acceptFollowRequest σ receiverId requestId).2 requestId
          = some { req with status := .ACCEPTED })) := by
  refine ⟨?_, ?_⟩
  · intro h
    simp [acceptFollowRequest, h]
  · intro req hreq
    refine ⟨?_, ?_, ?_⟩
    · intro hrc
      simp [acceptFollowRequest, hreq, hrc]
    · intro hrc hst
      simp [acceptFollowRequest, hreq, hrc, hst]
    · intro hrc hst hf
      have hmain : acceptFollowRequest σ receiverId requestId =
          (.ok ⟨σ.nextId, req.senderId, req.receiverId⟩,
           updateRequestStatus
             { σ with follows := σ.follows ++ [⟨σ.nextId, req.senderId, req.receiverId⟩],
                      nextId := σ.nextId + 1 }
             requestId .ACCEPTED) := by
        have hf2 : findFollow σ req.senderId receiverId = none := by
          rw [← hrc]
          exact hf
        simp [acceptFollowRequest, hreq, hrc, hst, createFollow, hf, hf2]
      refine ⟨hmain, ?_, ?_⟩
      · rw [hmain]
        have : findFollow
            (updateRequestStatus
              { σ with follows := σ.follows ++ [⟨σ.nextId, req.senderId, req.receiverId⟩],
                       nextId := σ.nextId + 1 }
              requestId .ACCEPTED) req.senderId req.receiverId
            = some ⟨σ.nextId, req.senderId, req.receiverId⟩ := by
          show (σ.follows ++ [(⟨σ.nextId, req.senderId, req.receiverId⟩ : Follow)]).find?
              (fun f => f.followerId == req.senderId && f.followingId == req.receiverId)
            = some ⟨σ.nextId, req.senderId, req.receiverId⟩
          exact find?_append_new_follow req.senderId req.receiverId σ.nextId σ.follows hf
        simp [isFollowing, this]
      · rw [hmain]
        exact find?_map_update_id requestId .ACCEPTED σ.requests req hreq

/-- C1 witness: accepting request 20 in the clean pending store creates edge
100 and flips the row to ACCEPTED in the same step. -/
theorem acceptFollowRequest_amended_witness :
    acceptFollowRequest storeAcceptOk 2 20 =
      (.ok ⟨100, 1, 2⟩,
       updateRequestStatus
         { storeAcceptOk with follows := [⟨100, 1, 2⟩], nextId := 101 }
         20 .ACCEPTED) ∧
    isFollowing (acceptFollowRequest storeAcceptOk 2 20).2 1 2 = true ∧
    findRequestById (acceptFollowRequest storeAcceptOk 2 20).2 20
      = some ⟨20, 1, 2, .ACCEPTED⟩ :=
  ((acceptFollowRequest_amended storeAcceptOk 2 20).2 ⟨20, 1, 2, .PENDING⟩
    rfl).2.2 rfl rfl rfl

/-- C7: every operation of the subsystem preserves the invariant that at most
one `FollowRequest` row exists per ordered (sender, receiver) pair — the
store's unique index rejects the only code path that would insert a
duplicate, updates keep pairs intact, and deletions only shrink the table.
The row's `status` field is the only place any of these operations record
pending/rejected state. -/
theorem requestPairUnique_preserved (σ : Store) (h : RequestPairUnique σ) :
    (∀ a b, RequestPairUnique (followUser σ a b).2) ∧
    (∀ rcv rid, RequestPairUnique (acceptFollowRequest σ rcv rid).2) ∧
    (∀ rcv rid, RequestPairUnique (rejectFollowRequest σ rcv rid).2) ∧
    (∀ s r, RequestPairUnique (cancelFollowRequest σ s r).2) ∧
    (∀ a b, RequestPairUnique (unfollowUser σ a b).2) ∧
    (∀ u f, RequestPairUnique (removeFollower σ u f).2) := by
  refine ⟨?_, ?_, ?_, ?_, ?_, ?_⟩
  · intro a b
    unfold followUser
    split
    · exact h
    · split
      · exact h
      · split
        · exact h
        · split
          · split
            · split
              · exact h
              · exact rpu_updateRequestStatus σ _ _ h
              · exact rpu_of_requests_eq
                  (by rw [followUserPrivateCreate_snd]) (rpu_createRequest σ a b h)
            · exact rpu_of_requests_eq
                (by rw [followUserPrivateCreate_snd]) (rpu_createRequest σ a b h)
          · exact rpu_of_requests_eq
              (by rw [followUserPublicInsert_snd, createFollow_requests]) h
  · intro rcv rid
    unfold acceptFollowRequest
    split
    · exact h
    · split
      · exact h
      · split
        · exact h
        · split
          · exact h
          · rename_i f σ₁ heq
            have hreq : σ₁.requests = σ.requests := by
              have h2 := congrArg (fun p => (Prod.snd p).requests) heq
              simpa [createFollow_requests] using h2.symm
            exact rpu_updateRequestStatus σ₁ rid .ACCEPTED (rpu_of_requests_eq hreq h)
  · intro rcv rid
    unfold rejectFollowRequest
    split
    · exact h
    · split
      · exact h
      · split
        · exact h
        · exact rpu_updateRequestStatus σ rid .REJECTED h
  · intro s r
    unfold cancelFollowRequest
    split
    · exact h
    · split
      · exact h
      · exact rpu_deleteRequestRow σ _ h
  · intro a b
    unfold unfollowUser
    split
    · exact h
    · exact rpu_of_requests_eq (by rw [deleteFollowRow]) h
  · intro u f
    unfold removeFollower
    split
    · exact h
    · exact rpu_of_requests_eq (by rw [deleteFollowRow]) h

/-- C7 witness: the invariant holds in `storePrivPending` and is preserved by
a follow attempt, an accept, and a cancel run against it. -/
theorem requestPairUnique_preserved_witness :
    RequestPairUnique storePrivPending ∧
    RequestPairUnique (followUser storePrivPending 1 2).2 ∧
    RequestPairUnique (acceptFollowRequest storePrivPending 2 20).2 ∧
    RequestPairUnique (cancelFollowRequest storePrivPending 1 2).2 :=
  ⟨by simp [RequestPairUnique, storePrivPending],
   (requestPairUnique_preserved storePrivPending
      (by simp [RequestPairUnique, storePrivPending])).1 1 2,
   (requestPairUnique_preserved storePrivPending
      (by simp [RequestPairUnique, storePrivPending])).2.1 2 20,
   (requestPairUnique_preserved storePrivPending
      (by simp [RequestPairUnique, storePrivPending])).2.2.2.1 1 2⟩

/-- C2: for a pin present in the store, `getPinById` returns the pin exactly
when the pin is public, or the viewer is its author, or the viewer follows
the author — the spec's visibility predicate `specPinVisible` — and returns
null otherwise.  An anonymous viewer never satisfies the predicate for a
non-public pin, and the author's `isPrivate` flag does not occur in the
predicate at all. -/
theorem getPinById_visibility (σ : Store) (pinId : Nat) (v : Option Nat) (pin : Pin)
    (h : findPin σ pinId = some pin) :
    (getPinById σ pinId v = some pin ↔ specPinVisible σ v pin) ∧
    (¬ specPinVisible σ v pin → getPinById σ pinId v = none) := by
  have hres : getPinById σ pinId v =
      (if pin.isPublic = false ∧ v ≠ some pin.authorId then
        match v with
        | some uid =>
          if (findFollow σ uid pin.authorId).isSome then some pin else none
        | none => none
      else some pin) := by
    unfold getPinById
    rw [h]
  by_cases hpub : pin.isPublic = true
  · rw [hres]
    simp [hpub, specPinVisible]
  · have hpubf : pin.isPublic = false := by
      cases hb : pin.isPublic
      · rfl
      · exact absurd hb hpub
    by_cases hv : v = some pin.authorId
    · rw [hres]
      simp [hv, specPinVisible]
    · rw [hres, if_pos ⟨hpubf, hv⟩]
      cases v with
      | none =>
        simp [specPinVisible, hpub]
      | some uid =>
        by_cases hf : (findFollow σ uid pin.authorId).isSome = true
        · refine ⟨⟨fun _ => Or.inr (Or.inr ⟨uid, rfl, hf⟩),
            fun _ => by simp [hf]⟩, ?_⟩
          intro hnv
          exact absurd (Or.inr (Or.inr ⟨uid, rfl, hf⟩)) hnv
        · have hnv : ¬ specPinVisible σ (some uid) pin := by
            intro hvp
            rcases hvp with h1 | h2 | ⟨u, hu, hfu⟩
            · exact hpub h1
            · exact hv h2
            · injection hu with hu
              subst hu
              exact hf hfu
          refine ⟨⟨fun he => ?_, fun hvp => absurd hvp hnv⟩,
            fun _ => by simp [hf]⟩
          simp [hf] at he

/-- C2 witness: the non-public pin 1 of private author 2 is hidden from
non-follower 3 and from the anonymous viewer, and becomes visible to 3 once
the follow edge 3 -> 2 exists. -/
theorem getPinById_visibility_witness :
    getPinById storePins 1 (some 3) = none ∧
    getPinById storePins 1 none = none ∧
    getPinById storePinsFollow 1 (some 3) = some pinPriv :=
  ⟨(getPinById_visibility storePins 1 (some 3) pinPriv rfl).2
      (by simp [specPinVisible, pinPriv, findFollow, storePins]),
   (getPinById_visibility storePins 1 none pinPriv rfl).2
      (by simp [specPinVisible, pinPriv]),
   (getPinById_visibility storePinsFollow 1 (some 3) pinPriv rfl).1.mpr
      (Or.inr (Or.inr ⟨3, rfl, rfl⟩))⟩

lemma mem_queryPins (σ : Store) (aid : Option Nat) (ipub : Option Bool)
    (limit offset : Nat) (pin : Pin)
    (h : pin ∈ queryPins σ aid ipub limit offset) :
    pinMatchesWhere aid ipub pin = true := by
  unfold queryPins at h
  have h1 := List.take_subset _ _ h
  have h2 := List.drop_subset _ _ h1
  have h3 : pin ∈ σ.pins.filter (pinMatchesWhere aid ipub) :=
    (List.perm_insertionSort _ _).mem_iff.mp h2
  exact (List.mem_filter.mp h3).2

lemma getPins_fst_subset_query (σ : Store) (p : GetPinsParams)
    (hgate : ¬ authorGateBlocked σ p.authorId p.requestingUserId = true) :
    ∀ pin ∈ (getPins σ p).1,
      pin ∈ queryPins σ p.authorId p.isPublic p.limit p.offset := by
  intro pin hmem
  unfold getPins at hmem
  rw [if_neg hgate] at hmem
  simp only at hmem
  revert hmem
  split
  · intro hmem
    exact List.mem_of_mem_filter hmem
  · intro hmem
    exact hmem

/-- C8: listing pins by author: (i) when the author is private and the
requester is neither the author nor one of its followers (the anonymous
requester included), the result is empty with total 0; (ii) when the
`isPublic` query parameter is supplied, every returned pin carries exactly
that flag; (iii) past the author gate, with no location filter, the returned
rows are exactly the retrieved page of the `where` filter — no other per-pin
visibility filtering is applied. -/
theorem getPins_author_gate_and_isPublic (σ : Store) (p : GetPinsParams) :
    (∀ a author, p.authorId = some a → p.requestingUserId ≠ some a →
      findUser σ a = some author → author.isPrivate = true →
      findFollowOpt σ p.requestingUserId a = none →
      getPins σ p = ([], 0)) ∧
    (∀ b, p.isPublic = some b → ∀ pin ∈ (getPins σ p).1, pin.isPublic = b) ∧
    (¬ authorGateBlocked σ p.authorId p.requestingUserId = true →
      p.radius = none →
      (getPins σ p).1 = queryPins σ p.authorId p.isPublic p.limit p.offset) := by
  refine ⟨?_, ?_, ?_⟩
  · intro a author ha hne hu hpriv hfo
    have hgate : authorGateBlocked σ p.authorId p.requestingUserId = true := by
      simp [authorGateBlocked, ha, hne, hu, hpriv, hfo]
    unfold getPins
    rw [if_pos hgate]
  · intro b hb pin hmem
    by_cases hgate : authorGateBlocked σ p.authorId p.requestingUserId = true
    · unfold getPins at hmem
      rw [if_pos hgate] at hmem
      simp at hmem
    · have hq := getPins_fst_subset_query σ p hgate pin hmem
      have hw := mem_queryPins σ p.authorId p.isPublic p.limit p.offset pin hq
      rw [hb] at hw
      simp [pinMatchesWhere] at hw
      exact hw.2
  · intro hgate hr
    unfold getPins
    rw [if_neg hgate]
    simp only
    rcases hlat : p.lat with _ | lat <;> rcases hlng : p.lng with _ | lng <;>
      simp [hr]

/-- C8 witness: listing private author 2's pins as non-follower 3 yields
nothing; with `isPublic := true` every returned pin is public; listing public
author 1's pins with no location parameters returns exactly the page. -/
theorem getPins_author_gate_and_isPublic_witness :
    getPins storePins { authorId := some 2, requestingUserId := some 3 } = ([], 0) ∧
    (∀ pin ∈ (getPins storePins { isPublic := some true }).1,
      pin.isPublic = true) ∧
    (getPins storePins { authorId := some 1 }).1 =
      queryPins storePins (some 1) none 50 0 :=
  ⟨(getPins_author_gate_and_isPublic storePins
      { authorId := some 2, requestingUserId := some 3 }).1 2 ⟨2, true⟩
      rfl (by decide) rfl rfl rfl,
   (getPins_author_gate_and_isPublic storePins { isPublic := some true }).2.1
      true rfl,
   (getPins_author_gate_and_isPublic storePins { authorId := some 1 }).2.2
      (by decide) rfl⟩

/-- C9: supplying `lat`, `lng` and `radius` never changes what the store
query retrieves: the result is the in-memory haversine filter (Earth radius
6371 km, `calculateDistance`) applied to exactly the page the same call
returns without location parameters, and the returned total is the same
store-side count, unfiltered by distance.  Hence a page of `limit` rows may
shrink below `limit` even though more matching pins exist beyond the page. -/
theorem getPins_distance_filter_in_memory (σ : Store) (p : GetPinsParams)
    (lat lng radius : ℝ) :
    getPins σ { p with lat := some lat, lng := some lng, radius := some radius } =
      (((getPins σ { p with lat := none, lng := none, radius := none }).1).filter
          (fun pin => decide (calculateDistance lat lng pin.lat pin.lng ≤ radius)),
       (getPins σ { p with lat := none, lng := none, radius := none }).2) := by
  by_cases hgate : authorGateBlocked σ p.authorId p.requestingUserId = true
  · simp [getPins, hgate]
  · simp [getPins, hgate]

end Mapin
